import Mathlib

/-!
Verification of the docpilot RAG pipeline core: text chunking
(src/knowledge_copilot/utils/chunking.py), database search filtering and
document deduplication (src/knowledge_copilot/services/__init__.py),
the agent answer policy and context assembly (src/knowledge_copilot/agent.py),
and the API request models (src/main.py, src/app.py).

Text is embedded as `List Char` (one element per Unicode code point, matching
Python string indexing and `len`). Floats are embedded as `ℚ`: every claim in
scope depends only on ordering and affine arithmetic of the scores, not on
IEEE 754 rounding. Fallible calls are embedded as `Except String`.
-/

namespace DocPilot

/-! ## Chunker (src/knowledge_copilot/utils/chunking.py, chunk_text lines 16-90) -/

/-- The whitespace characters removed by Python str.strip() for ASCII input. -/
def isPySpace (c : Char) : Bool :=
  c == ' ' || c == '\t' || c == '\n' || c == '\r' || c == '\x0b' || c == '\x0c'

/-- Python str.strip(): drop leading and trailing whitespace. -/
def pyStrip (l : List Char) : List Char :=
  ((l.dropWhile isPySpace).reverse.dropWhile isPySpace).reverse

/-- Python text.rfind(sep, a, b): the largest index i with a ≤ i and
i + sep.length ≤ b at which sep occurs in text, `none` standing for -1. -/
def pyRfind (t sep : List Char) (a b : Nat) : Option Nat :=
  ((List.range b).filter fun i =>
    decide (a ≤ i) && decide (i + sep.length ≤ b) && ((t.drop i).take sep.length == sep)).max?

/-- The default separator list of chunk_text (lines 34-45): paragraph, line,
sentence enders, clause separators, space, and the empty string meaning
character-level split. -/
def defaultSeparators : List (List Char) :=
  [['\n', '\n'], ['\n'], ['.', ' '], ['!', ' '], ['?', ' '], [';', ' '], [',', ' '], [' '], []]

/-- The separator-search loop of chunk_text (lines 54-69): for each separator
in preference order, stop at the empty separator, otherwise look for its last
occurrence in a bounded look-back window before `e`; if it occurs strictly
after `start`, break there (keeping the separator); else try the next one.
Returns the chosen chunk end. -/
def findBreak (t : List Char) (start e : Nat) : List (List Char) → Nat
  | [] => e
  | sep :: rest =>
    if sep.isEmpty then e
    else
      match pyRfind t sep (max start (e - sep.length * 10)) e with
      | some i => if start < i then i + sep.length else findBreak t start e rest
      | none => findBreak t start e rest

/-- The chunk end for the current cursor (lines 52-69): the raw boundary is
start + chunk_size capped at the text length; if that falls strictly inside
the text, the separator search may move it backwards. -/
def chunkEnd (t : List Char) (cs : Nat) (seps : List (List Char)) (start : Nat) : Nat :=
  let e0 := min (start + cs) t.length
  if e0 < t.length then findBreak t start e0 seps else e0

/-- The stripped text of the chunk that starts at the cursor (line 72). -/
def chunkPiece (t : List Char) (cs : Nat) (seps : List (List Char)) (start : Nat) : List Char :=
  pyStrip ((t.drop start).take (chunkEnd t cs seps start - start))

/-- One emitted chunk: the dict built at lines 75-83, with the metadata
sub-dict flattened into fields. -/
structure ChunkData where
  text : List Char
  index : Nat
  start_char : Nat
  end_char : Nat
  chunk_size : Nat
deriving DecidableEq, Repr

/-- The while-loop of chunk_text (lines 51-88), fuel-indexed: `none` means the
fuel ran out before the cursor reached the end of the text. Empty stripped
chunks are skipped without consuming an index; the cursor advances to
max(start + 1, end - chunk_overlap). -/
def chunkLoop (t : List Char) (cs co : Nat) (seps : List (List Char)) :
    Nat → Nat → Nat → List ChunkData → Option (List ChunkData)
  | 0, _, _, _ => none
  | fuel + 1, start, idx, acc =>
    if start < t.length then
      let e := chunkEnd t cs seps start
      let ct := chunkPiece t cs seps start
      if ct.isEmpty then
        chunkLoop t cs co seps fuel (max (start + 1) (e - co)) idx acc
      else
        chunkLoop t cs co seps fuel (max (start + 1) (e - co)) (idx + 1)
          (acc ++ [⟨ct, idx, start, e, ct.length⟩])
    else
      some acc

/-- chunk_text (lines 16-90). The Python defaults are chunk_size = 1000,
chunk_overlap = 200, separators = defaultSeparators; parameters are passed
explicitly here. The loop is run with fuel text.length + 1, which suffices
(theorem C6_chunker_terminates). -/
def chunk_text (t : List Char) (cs co : Nat) (seps : List (List Char)) : List ChunkData :=
  (chunkLoop t cs co seps (t.length + 1) 0 0 []).getD []

/-! ## Database search (src/knowledge_copilot/services/__init__.py, search lines 154-226)

The SQL nearest-neighbor scan itself is the external vector store (spec scope
cut): the rows it returns, already ordered by ascending distance and capped by
LIMIT, are the input of the embedded result-formatting loop (lines 196-219). -/

/-- One row fetched by the SQL query (lines 180-197): chunk id, chunk text,
chunk metadata (nullable), the joined document columns, and the vector
distance. The metadata map is a key-value list. -/
structure DbRow where
  id : Nat
  text : List Char
  chunk_metadata : Option (List (List Char × List Char))
  source : Option (List Char)
  uri : Option (List Char)
  title : Option (List Char)
  mime : Option (List Char)
  distance : ℚ
deriving DecidableEq

/-- One formatted search result (the dict built at lines 206-218), with the
nested document dict flattened into doc_-prefixed fields. -/
structure DbSearchResult where
  chunk_id : Nat
  text : List Char
  metadata : List (List Char × List Char)
  doc_source : Option (List Char)
  doc_uri : Option (List Char)
  doc_title : Option (List Char)
  doc_mime : Option (List Char)
  similarity_score : ℚ
  distance : ℚ
deriving DecidableEq

/-- Lines 206-218: format one row; similarity_score = 1.0 - distance. -/
def formatRow (r : DbRow) : DbSearchResult :=
  ⟨r.id, r.text, r.chunk_metadata.getD [], r.source, r.uri, r.title, r.mime,
    1 - r.distance, r.distance⟩

/-- Line 203: the guard of the continue statement,
`if similarity_threshold and row.distance > similarity_threshold`. A row is
skipped exactly when the threshold is truthy (present and nonzero, Python
float truthiness) and the row distance exceeds it. -/
def thresholdSkips (threshold : Option ℚ) (distance : ℚ) : Bool :=
  match threshold with
  | none => false
  | some t => decide (t ≠ 0) && decide (t < distance)

/-- DatabaseService.search result loop (lines 200-219): keep the rows the
guard does not skip, in order, formatted. -/
def db_search (rows : List DbRow) (threshold : Option ℚ) : List DbSearchResult :=
  (rows.filter fun r => ! thresholdSkips threshold r.distance).map formatRow

/-! ## Document dedup (src/knowledge_copilot/services/__init__.py, index_document lines 64-152)

Only the documents table is modelled: the early dedup return (lines 92-98)
fires before any chunking or embedding, and claim C7 is about Document
entities. The SHA-256 digest is the hash parameter; SERIAL ids are modelled
as row count + 1. The metadata argument is only merged into chunk rows in the
source, so it is accepted and unused here. -/

/-- One row of the documents table (src/knowledge_copilot/models/__init__.py,
Document lines 15-32, without the timestamp). -/
structure DocRow where
  id : Nat
  source : Option (List Char)
  uri : Option (List Char)
  title : Option (List Char)
  mime : Option (List Char)
  content_hash : List Char
deriving DecidableEq

/-- DatabaseService.index_document (lines 64-152), documents-table effect:
hash the content; if a document with that hash exists return its id and leave
the table unchanged, otherwise insert a fresh row and return its id. -/
def index_document (hash : List Char → List Char) (db : List DocRow)
    (content : List Char) (source uri title mime : Option (List Char))
    (_metadata : Option (List (List Char × List Char))) : Nat × List DocRow :=
  let h := hash content
  match db.find? (fun d => d.content_hash == h) with
  | some d => (d.id, db)
  | none =>
    let newId := db.length + 1
    (newId, db ++ [⟨newId, source, uri, title, mime, h⟩])

/-! ## Agent (src/knowledge_copilot/agent.py, DocPilotAgent lines 190-427)

The MCP search call and the LLM call are the external collaborators: `ask`
takes the retrieval outcome and the generation function as parameters, with
exceptions embedded as `Except.error`. The trace id (uuid), wall-clock timing
fields and the logging mixin calls are observability side channels that never
touch answer, sources, chunks_scanned or fallback_used; they are omitted. -/

/-- One search result dict as consumed by the agent: the fields read through
result.get and metadata.get (lines 218-224 and 266-277), `none` standing for
an absent key so that each call site applies its own default. -/
structure AgentResult where
  content : Option String
  title : Option String
  source : Option String
  uri : Option String
  repo : Option String
  path : Option String
  mime : Option String
  similarity_score : Option ℚ
  chunk_id : Option String
deriving DecidableEq

/-- Three-digit left pad for the fractional part of fmt3. -/
def pad3 (n : Nat) : String :=
  if n < 10 then "00" ++ toString n else if n < 100 then "0" ++ toString n else toString n

/-- The Python format f-string {x:.3f}: fixed-point with three decimals.
Python rounds the IEEE double half-to-even; this models rounding of the exact
rational, which agrees on every value used in this development. -/
def fmt3 (q : ℚ) : String :=
  let sign := if q < 0 then "-" else ""
  let m : Nat := (round (|q| * 1000) : ℤ).toNat
  sign ++ toString (m / 1000) ++ "." ++ pad3 (m % 1000)

/-- Lines 218-234 of _build_rag_prompt: render one candidate as its source
info line followed by its content. The 1-based display index comes from
enumerate; title and uri are appended only when truthy (nonempty). -/
def renderChunk (i : Nat) (r : AgentResult) : String :=
  let content := r.content.getD ""
  let title := r.title.getD ""
  let uri := r.uri.getD ""
  let similarity := r.similarity_score.getD 0
  let s1 := "[Source " ++ toString (i + 1) ++ "]"
  let s2 := if title.isEmpty then s1 else s1 ++ " " ++ title
  let s3 := if uri.isEmpty then s2 else s2 ++ " (" ++ uri ++ ")"
  s3 ++ " - Similarité: " ++ fmt3 similarity ++ "\n" ++ content ++ "\n"

/-- All candidates rendered in retrieval order, carrying the running
enumerate index. -/
def renderedChunksFrom (i : Nat) : List AgentResult → List String
  | [] => []
  | r :: rest => renderChunk i r :: renderedChunksFrom (i + 1) rest

/-- All candidates rendered in retrieval order with their enumerate index. -/
def renderedChunks (rs : List AgentResult) : List String :=
  renderedChunksFrom 0 rs

/-- The accumulation loop of _build_rag_prompt (lines 215-241): walk the
rendered candidates keeping a running total; stop (break) at the first one
whose length would push the total past max_context_length. -/
def contextPartsLoop (maxLen : Nat) : List String → Nat → List String
  | [], _ => []
  | ct :: rest, total =>
    if maxLen < total + ct.length then []
    else ct :: contextPartsLoop maxLen rest (total + ct.length)

/-- The context_parts list built by _build_rag_prompt for given candidates
and context budget. -/
def context_parts (rs : List AgentResult) (maxLen : Nat) : List String :=
  contextPartsLoop maxLen (renderedChunks rs) 0

/-- _build_rag_prompt (lines 207-260): the context joined with the fixed
delimiter, embedded in the instruction template. -/
def build_rag_prompt (maxLen : Nat) (question : String) (rs : List AgentResult) : String :=
  let context := String.intercalate "\n---\n" (context_parts rs maxLen)
  "Contexte documentaire:\n" ++ context ++ "\n\nQuestion: " ++ question ++
    "\n\nInstructions:\n- Réponds uniquement en utilisant les informations du contexte fourni ci-dessus\n- Cite explicitement les sources en mentionnant [Source X] dans ta réponse\n- Si le contexte ne contient pas d\x27informations suffisantes, réponds: \"Je ne trouve pas d\x27informations pertinentes dans la documentation pour répondre à cette question.\"\n- Sois précis et factuel\n- Structure ta réponse clairement\n\nRéponse:"

/-- One attributed source (the dict built by _extract_sources, lines 266-279),
with the metadata.get defaults of the source applied. -/
structure SourceEntry where
  index : Nat
  title : String
  source : String
  uri : String
  repo : String
  path : String
  mime : String
  similarity_score : ℚ
  chunk_id : String
deriving DecidableEq

/-- The dict built for one search result by _extract_sources (lines 267-278),
at enumerate index i. -/
def sourceEntry (i : Nat) (r : AgentResult) : SourceEntry :=
  ⟨i + 1, r.title.getD "Document sans titre", r.source.getD "unknown",
    r.uri.getD "", r.repo.getD "", r.path.getD "", r.mime.getD "",
    r.similarity_score.getD 0, r.chunk_id.getD ""⟩

/-- The loop of _extract_sources, carrying the running enumerate index. -/
def extractSourcesFrom (i : Nat) : List AgentResult → List SourceEntry
  | [] => []
  | r :: rest => sourceEntry i r :: extractSourcesFrom (i + 1) rest

/-- _extract_sources (lines 262-281): one entry per search result, in
retrieval order, with 1-based display indices. -/
def extract_sources (rs : List AgentResult) : List SourceEntry :=
  extractSourcesFrom 0 rs

/-- Python substring containment (the `in` operator on str). -/
def containsSub (hay needle : List Char) : Bool :=
  (List.range (hay.length + 1)).any fun i => (hay.drop i).take needle.length == needle

/-- The refusal phrase list of ask (lines 350-355). -/
def fallback_phrases : List String :=
  ["je ne trouve pas", "je ne sais pas", "informations insuffisantes",
    "pas d\x27informations pertinentes"]

/-- Line 356: any refusal phrase occurs in the case-folded answer. Python
str.lower is Unicode-aware; the phrases are ASCII, and Char.toLower covers the
ASCII range. -/
def detect_fallback (answer : String) : Bool :=
  fallback_phrases.any fun p => containsSub (answer.data.map Char.toLower) p.data

/-- The canned insufficient-context answer (line 318). -/
def insufficient_context_answer : String :=
  "Je ne trouve pas suffisamment d\x27informations pertinentes dans la documentation pour répondre à cette question."

/-- The error answer template of the except handler (line 389). -/
def error_answer_template : String :=
  "Une erreur s\x27est produite lors du traitement de votre question: "

/-- AgentResponse (lines 19-28) restricted to the data fields: trace_id,
response_time and the unused confidence field are omitted (observability). -/
structure AgentResponse where
  answer : String
  sources : List SourceEntry
  chunks_scanned : Nat
  fallback_used : Bool
deriving DecidableEq

/-- The except branch of ask (lines 381-407): structured error response. -/
def erroredResponse (e : String) : AgentResponse :=
  ⟨error_answer_template ++ e, [], 0, true⟩

/-- DocPilotAgent.ask (lines 283-407). retrieval is the outcome of the MCP
search call; generate is the LLM provider call on the assembled prompt. Any
raised exception (either call) lands in the except branch; otherwise fewer
candidates than min_context_chunks short-circuits to the canned fallback
before any generation, and a successful generation is classified post hoc by
refusal-phrase matching, with sources extracted from search_results. -/
def ask (minChunks maxCtx : Nat) (question : String)
    (retrieval : Except String (List AgentResult))
    (generate : String → Except String String) : AgentResponse :=
  match retrieval with
  | .error e => erroredResponse e
  | .ok searchResults =>
    if searchResults.length < minChunks then
      ⟨insufficient_context_answer, [], searchResults.length, true⟩
    else
      match generate (build_rag_prompt maxCtx question searchResults) with
      | .error e => erroredResponse e
      | .ok aiResponse =>
        ⟨aiResponse, extract_sources searchResults, searchResults.length,
          detect_fallback aiResponse⟩

/-! ## API request models (src/main.py lines 52-56, src/app.py lines 124-128)

Pydantic validation of the two search request models. The raw request carries
`none` for an absent field; type coercion is abstracted away (fields arrive
already typed), so validation consists of the presence check on query, the
defaults, and the declared Field constraints. Error strings abbreviate the
pydantic messages. -/

/-- A raw /search request body before validation. -/
structure RawSearchRequest where
  query : Option String
  limit : Option Int
  similarity_threshold : Option ℚ
  source_filter : Option String
deriving DecidableEq

/-- A validated search request (either API). -/
structure SearchRequest where
  query : String
  limit : Int
  similarity_threshold : Option ℚ
  source_filter : Option String
deriving DecidableEq

/-- The RAG API model (src/main.py lines 52-56): query required, limit
defaults to 10, no constraint is declared on any field. -/
def main_validate_search_request (r : RawSearchRequest) : Except String SearchRequest :=
  match r.query with
  | none => .error "query: field required"
  | some q => .ok ⟨q, r.limit.getD 10, r.similarity_threshold, r.source_filter⟩

/-- The MCP server model (src/app.py lines 124-128): query required, limit
defaults to 10 with Field(ge=1, le=100), similarity_threshold optional with
Field(ge=0.0, le=1.0). -/
def app_validate_search_request (r : RawSearchRequest) : Except String SearchRequest :=
  match r.query with
  | none => .error "query: field required"
  | some q =>
    let l := r.limit.getD 10
    if l < 1 ∨ 100 < l then .error "limit: value out of range"
    else
      match r.similarity_threshold with
      | some t =>
        if t < 0 ∨ 1 < t then .error "similarity_threshold: value out of range"
        else .ok ⟨q, l, some t, r.source_filter⟩
      | none => .ok ⟨q, l, none, r.source_filter⟩

end DocPilot

namespace DocPilot

/-- Total length of a list of rendered candidate blocks. -/
def sumLens (l : List String) : Nat := (l.map String.length).sum

/-- A minimal sample candidate: only content present. -/
def c2cand (s : String) : AgentResult :=
  ⟨some s, none, none, none, none, none, none, none, none⟩

/-- Three sample candidates whose rendered blocks are 36 characters each. -/
def c2cands : List AgentResult := [c2cand "aaaa", c2cand "bbbb", c2cand "cccc"]

/-- A sample generated answer containing no refusal phrase. -/
def c2answer : String := "Voici la description selon [Source 1]."

end DocPilot

namespace DocPilot

lemma pyRfind_le {t sep : List Char} {a b i : Nat} (h : pyRfind t sep a b = some i) :
    i + sep.length ≤ b := by
  unfold pyRfind at h
  have hm := List.max?_mem (fun x y => max_choice x y) h
  rw [List.mem_filter] at hm
  have hp := hm.2
  simp only [Bool.and_eq_true, decide_eq_true_eq] at hp
  exact hp.1.2

lemma findBreak_le (t : List Char) (start e : Nat) :
    ∀ seps, findBreak t start e seps ≤ e := by
  intro seps
  induction seps with
  | nil => simp [findBreak]
  | cons sep rest ih =>
    rw [findBreak]
    split
    · exact le_refl e
    · cases h : pyRfind t sep (max start (e - sep.length * 10)) e with
      | none => exact ih
      | some i =>
        show (if start < i then i + sep.length else findBreak t start e rest) ≤ e
        split
        · exact pyRfind_le h
        · exact ih

lemma chunkEnd_le (t : List Char) (cs : Nat) (seps : List (List Char)) (start : Nat) :
    chunkEnd t cs seps start ≤ start + cs := by
  rw [chunkEnd]
  split
  · exact le_trans (findBreak_le t start _ seps) (min_le_left _ _)
  · exact min_le_left _ _

lemma pyStrip_length_le (l : List Char) : (pyStrip l).length ≤ l.length := by
  rw [pyStrip]
  calc ((l.dropWhile isPySpace).reverse.dropWhile isPySpace).reverse.length
      = ((l.dropWhile isPySpace).reverse.dropWhile isPySpace).length := by
        rw [List.length_reverse]
    _ ≤ (l.dropWhile isPySpace).reverse.length :=
        (List.dropWhile_sublist _).length_le
    _ = (l.dropWhile isPySpace).length := by rw [List.length_reverse]
    _ ≤ l.length := (List.dropWhile_sublist _).length_le

lemma chunkPiece_length_le (t : List Char) (cs : Nat) (seps : List (List Char)) (start : Nat) :
    (chunkPiece t cs seps start).length ≤ cs := by
  rw [chunkPiece]
  refine le_trans (pyStrip_length_le _) ?_
  have h1 : ((t.drop start).take (chunkEnd t cs seps start - start)).length ≤
      chunkEnd t cs seps start - start := by
    rw [List.length_take]
    exact min_le_left _ _
  have h2 := chunkEnd_le t cs seps start
  omega

lemma chunkLoop_bound (t : List Char) (cs co : Nat) (seps : List (List Char)) :
    ∀ fuel start idx acc r, chunkLoop t cs co seps fuel start idx acc = some r →
      (∀ c ∈ acc, c.text.length ≤ cs) → ∀ c ∈ r, c.text.length ≤ cs := by
  intro fuel
  induction fuel with
  | zero => intro start idx acc r h; simp [chunkLoop] at h
  | succ n ih =>
    intro start idx acc r h hacc
    rw [chunkLoop] at h
    dsimp only [] at h
    split at h
    · split at h
      · exact ih _ _ _ _ h hacc
      · refine ih _ _ _ _ h ?_
        intro c hc
        rcases List.mem_append.mp hc with hc | hc
        · exact hacc c hc
        · simp only [List.mem_singleton] at hc
          subst hc
          exact chunkPiece_length_le t cs seps start
    · cases h
      exact hacc

lemma chunkLoop_isSome (t : List Char) (cs co : Nat) (seps : List (List Char)) :
    ∀ fuel start idx acc, t.length - start < fuel →
      (chunkLoop t cs co seps fuel start idx acc).isSome := by
  intro fuel
  induction fuel with
  | zero => intro start idx acc h; omega
  | succ n ih =>
    intro start idx acc h
    rw [chunkLoop]
    dsimp only []
    split
    · next hs =>
      have hmax : start + 1 ≤ max (start + 1) (chunkEnd t cs seps start - co) :=
        le_max_left _ _
      have hsub : t.length - max (start + 1) (chunkEnd t cs seps start - co) ≤
          t.length - (start + 1) := Nat.sub_le_sub_left hmax t.length
      have hlt : t.length - max (start + 1) (chunkEnd t cs seps start - co) < n := by omega
      split
      · exact ih _ _ _ hlt
      · exact ih _ _ _ hlt
    · simp

/-- C6: for every text, chunk size > 0 and any overlap, the chunking loop
halts within text.length + 1 iterations (the cursor strictly increases each
round), and chunk_text is its finite result. -/
theorem C6_chunker_terminates (t : List Char) (cs co : Nat) (seps : List (List Char))
    (h : 0 < cs) :
    ∃ r, chunkLoop t cs co seps (t.length + 1) 0 0 [] = some r ∧
      chunk_text t cs co seps = r := by
  have hs := chunkLoop_isSome t cs co seps (t.length + 1) 0 0 [] (by omega)
  obtain ⟨r, hr⟩ := Option.isSome_iff_exists.mp hs
  exact ⟨r, hr, by simp [chunk_text, hr]⟩

theorem C6_termination_witness :
    ∃ r, chunkLoop ("hello world".data) 5 2 defaultSeparators
        (("hello world".data).length + 1) 0 0 [] = some r ∧
      chunk_text ("hello world".data) 5 2 defaultSeparators = r :=
  C6_chunker_terminates ("hello world".data) 5 2 defaultSeparators (by decide)

/-- C5 amended: every emitted chunk has length at most max_chars, with no
exception: an unsplittable token longer than max_chars is split at character
level, not emitted whole. -/
theorem C5_chunk_length_bound (t : List Char) (cs co : Nat) (h1 : 0 < cs) (h2 : co < cs) :
    ∀ c ∈ chunk_text t cs co defaultSeparators, c.text.length ≤ cs := by
  intro c hc
  rw [chunk_text] at hc
  cases h : chunkLoop t cs co defaultSeparators (t.length + 1) 0 0 [] with
  | none => rw [h] at hc; simp at hc
  | some r =>
    rw [h] at hc
    simp only [Option.getD_some] at hc
    exact chunkLoop_bound t cs co defaultSeparators _ _ _ _ _ h (by simp) c hc

theorem C5_chunk_bound_witness :
    ((chunk_text (List.replicate 7 'b') 3 1 defaultSeparators).all
      fun c => decide (c.text.length ≤ 3)) = true := by
  have h := C5_chunk_length_bound (List.replicate 7 'b') 3 1 (by decide) (by decide)
  rw [List.all_eq_true]
  intro c hc
  exact decide_eq_true (h c hc)

/-- C5 counterexample: a text that is a single unsplittable 10-character token
chunked with max_chars = 4 is split into pieces of lengths 4, 4, 2; no chunk
of the full token length 10 is emitted. -/
theorem C5_oversize_token_not_emitted_whole :
    ((chunk_text (List.replicate 10 'A') 4 0 defaultSeparators).map
      fun c => c.text.length) = [4, 4, 2] ∧
    ¬ ∃ c ∈ chunk_text (List.replicate 10 'A') 4 0 defaultSeparators,
        c.text.length = 10 := by
  constructor
  · decide
  · decide

lemma contextPartsLoop_spec (maxLen : Nat) :
    ∀ (l : List String) (total : Nat), total ≤ maxLen →
      ∃ k, contextPartsLoop maxLen l total = l.take k ∧
        total + sumLens (l.take k) ≤ maxLen ∧
        (k < l.length → maxLen < total + sumLens (l.take k) + (l.getD k "").length) := by
  intro l
  induction l with
  | nil =>
    intro total h
    exact ⟨0, by simp [contextPartsLoop], by simpa [sumLens], by simp⟩
  | cons ct rest ih =>
    intro total h
    by_cases hov : maxLen < total + ct.length
    · refine ⟨0, ?_, ?_, ?_⟩
      · simp [contextPartsLoop, hov]
      · simpa [sumLens]
      · intro _
        simpa [sumLens] using hov
    · push_neg at hov
      obtain ⟨k, h1, h2, h3⟩ := ih (total + ct.length) hov
      refine ⟨k + 1, ?_, ?_, ?_⟩
      · rw [contextPartsLoop, if_neg (not_lt.mpr hov), h1, List.take_succ_cons]
      · simp only [List.take_succ_cons, sumLens, List.map_cons, List.sum_cons]
        simp only [sumLens] at h2
        omega
      · intro hk
        have hk' : k < rest.length := by simpa using hk
        have := h3 hk'
        simp only [List.take_succ_cons, sumLens, List.map_cons, List.sum_cons,
          List.getD_cons_succ] at *
        omega

/-- C9: the assembled context is a prefix of the rendered candidate blocks in
retrieval order: all blocks before the first overflowing one are kept whole,
that block and all after it are dropped, and the total length of the kept
blocks never exceeds the budget. -/
theorem C9_context_whole_candidate_truncation (rs : List AgentResult) (maxCtx : Nat) :
    ∃ k, context_parts rs maxCtx = (renderedChunks rs).take k ∧
      sumLens ((renderedChunks rs).take k) ≤ maxCtx ∧
      (k < (renderedChunks rs).length →
        maxCtx < sumLens ((renderedChunks rs).take k) +
          ((renderedChunks rs).getD k "").length) := by
  obtain ⟨k, h1, h2, h3⟩ :=
    contextPartsLoop_spec maxCtx (renderedChunks rs) 0 (Nat.zero_le _)
  refine ⟨k, h1, by simpa using h2, fun hk => by simpa using h3 hk⟩

lemma extractSourcesFrom_length (rs : List AgentResult) :
    ∀ i, (extractSourcesFrom i rs).length = rs.length := by
  induction rs with
  | nil => intro i; rfl
  | cons r rest ih => intro i; simp [extractSourcesFrom, ih]

/-- C3: with fewer retrieved candidates than min_context_chunks, ask returns
the canned fallback answer with no sources and the fallback flag set, and the
result does not depend on the generation function (it is never invoked). -/
theorem C3_insufficient_context_fallback (minChunks maxCtx : Nat) (question : String)
    (rs : List AgentResult) (generate : String → Except String String)
    (h : rs.length < minChunks) :
    ask minChunks maxCtx question (.ok rs) generate =
      ⟨insufficient_context_answer, [], rs.length, true⟩ := by
  simp [ask, h]

theorem C3_fallback_witness :
    ask 2 8000 "q" (.ok [⟨some "x", none, none, none, none, none, none, none, none⟩])
      (fun _ => .error "generator invoked") =
      ⟨insufficient_context_answer, [], 1, true⟩ :=
  C3_insufficient_context_fallback 2 8000 "q" _ _ (by decide)

/-- C4: any retrieval error, or any generation error on the assembled prompt,
yields the structured error response: the error message appended to the fixed
answer template, no sources, zero chunks scanned, fallback flag true; ask is
total and never re-raises. -/
theorem C4_errors_yield_structured_response (minChunks maxCtx : Nat) (question : String)
    (retrieval : Except String (List AgentResult))
    (generate : String → Except String String) (e : String)
    (h : retrieval = .error e ∨
      ∃ rs, retrieval = .ok rs ∧ minChunks ≤ rs.length ∧
        generate (build_rag_prompt maxCtx question rs) = .error e) :
    ask minChunks maxCtx question retrieval generate =
      ⟨error_answer_template ++ e, [], 0, true⟩ := by
  rcases h with h | ⟨rs, hr, hm, hg⟩
  · subst h; rfl
  · subst hr
    simp [ask, Nat.not_lt.mpr hm, hg, erroredResponse]

theorem C4_error_witness :
    ask 2 8000 "q" (.error "boom") (fun _ => .ok "unused") =
      ⟨error_answer_template ++ "boom", [], 0, true⟩ :=
  C4_errors_yield_structured_response 2 8000 "q" _ _ "boom" (Or.inl rfl)

/-- C2 amended: when generation succeeds (whether the result is classified
ANSWERED or FALLBACK), the sources are attributed from all retrieved
candidates, one entry per candidate, including candidates dropped from the
assembled context by the budget. -/
theorem C2_sources_attributed_from_all_retrieved (minChunks maxCtx : Nat)
    (question : String) (rs : List AgentResult)
    (generate : String → Except String String) (txt : String)
    (hm : minChunks ≤ rs.length)
    (hg : generate (build_rag_prompt maxCtx question rs) = .ok txt) :
    (ask minChunks maxCtx question (.ok rs) generate).sources = extract_sources rs ∧
    (ask minChunks maxCtx question (.ok rs) generate).sources.length = rs.length ∧
    (ask minChunks maxCtx question (.ok rs) generate).answer = txt ∧
    (ask minChunks maxCtx question (.ok rs) generate).fallback_used =
      detect_fallback txt := by
  have hask : ask minChunks maxCtx question (.ok rs) generate =
      ⟨txt, extract_sources rs, rs.length, detect_fallback txt⟩ := by
    simp [ask, Nat.not_lt.mpr hm, hg]
  rw [hask]
  exact ⟨rfl, extractSourcesFrom_length rs 0, rfl, rfl⟩

/-- C10: a similarity threshold of exactly 0.0 is falsy in the guard, so the
filter is skipped entirely and search behaves as if no threshold were given. -/
theorem C10_zero_threshold_disables_filter (rows : List DbRow) :
    db_search rows (some 0) = db_search rows none := by
  simp [db_search, thresholdSkips]

lemma fmt3_zero : fmt3 0 = "0.000" := by
  norm_num [fmt3]
  decide

lemma renderedChunks_c2 :
    renderedChunks c2cands =
      ["[Source 1] - Similarité: 0.000\naaaa\n",
       "[Source 2] - Similarité: 0.000\nbbbb\n",
       "[Source 3] - Similarité: 0.000\ncccc\n"] := by
  simp only [renderedChunks, c2cands, c2cand, renderedChunksFrom, renderChunk,
    Option.getD_none, fmt3_zero]
  decide

/-- C2 counterexample: three retrieved candidates, a context budget that only
admits the first two rendered blocks, and a generated answer with no refusal
phrase: the response is in the ANSWERED state (fallback_used = false) yet its
sources list has three entries while only two candidates entered the context. -/
theorem C2_sources_include_dropped_candidates :
    (ask 2 80 "q" (.ok c2cands) fun _ => .ok c2answer).fallback_used = false ∧
    (ask 2 80 "q" (.ok c2cands) fun _ => .ok c2answer).sources.length = 3 ∧
    (context_parts c2cands 80).length = 2 := by
  refine ⟨by decide, by decide, ?_⟩
  show (contextPartsLoop 80 (renderedChunks c2cands) 0).length = 2
  rw [renderedChunks_c2]
  decide

theorem C2_sources_witness :
    (ask 1 100 "q" (.ok [c2cand "x"]) fun _ => .ok c2answer).sources =
      extract_sources [c2cand "x"] ∧
    (ask 1 100 "q" (.ok [c2cand "x"]) fun _ => .ok c2answer).sources.length =
      [c2cand "x"].length ∧
    (ask 1 100 "q" (.ok [c2cand "x"]) fun _ => .ok c2answer).answer = c2answer ∧
    (ask 1 100 "q" (.ok [c2cand "x"]) fun _ => .ok c2answer).fallback_used =
      detect_fallback c2answer :=
  C2_sources_attributed_from_all_retrieved 1 100 "q" [c2cand "x"]
    (fun _ => .ok c2answer) c2answer (by decide) rfl

/-- C1: the threshold guard compares the configured similarity_threshold
against the row distance, not the similarity: with threshold 0.7, a row at
distance 0.5 (similarity 0.5, strictly below the threshold) is kept in the
filtered results. -/
theorem C1_search_keeps_low_similarity :
    (db_search [⟨1, ['a'], none, none, none, none, none, 1/2⟩] (some (7/10))).map
      DbSearchResult.similarity_score = [1/2] ∧ ((1:ℚ)/2 < 7/10) := by
  constructor
  · norm_num [db_search, thresholdSkips, formatRow]
  · norm_num

/-- C7: the content hash is the dedup identity of a document. Re-ingesting
byte-identical content, under any other source tag or metadata, returns the
first ingestion identity and leaves the table unchanged; ingesting content
with a different hash inserts a second document. -/
theorem C7_content_hash_dedup (hash : List Char → List Char)
    (hinj : Function.Injective hash) (db : List DocRow) (c c' : List Char)
    (hne : c ≠ c')
    (hc : ∀ d ∈ db, d.content_hash ≠ hash c)
    (hc' : ∀ d ∈ db, d.content_hash ≠ hash c')
    (s1 u1 t1 m1 : Option (List Char)) (md1 : Option (List (List Char × List Char)))
    (s2 u2 t2 m2 : Option (List Char)) (md2 : Option (List (List Char × List Char)))
    (s3 u3 t3 m3 : Option (List Char)) (md3 : Option (List (List Char × List Char))) :
    index_document hash (index_document hash db c s1 u1 t1 m1 md1).2 c s2 u2 t2 m2 md2 =
      index_document hash db c s1 u1 t1 m1 md1 ∧
    (index_document hash (index_document hash db c s1 u1 t1 m1 md1).2
        c' s3 u3 t3 m3 md3).2.length = db.length + 2 := by
  have hfind : db.find? (fun d => d.content_hash == hash c) = none := by
    rw [List.find?_eq_none]
    intro d hd
    simp only [beq_iff_eq]
    exact hc d hd
  have hfindB : db.find? (fun d => d.content_hash == hash c') = none := by
    rw [List.find?_eq_none]
    intro d hd
    simp only [beq_iff_eq]
    exact hc' d hd
  have hne2 : hash c ≠ hash c' := fun hcc => hne (hinj hcc)
  have h1 : index_document hash db c s1 u1 t1 m1 md1 =
      (db.length + 1, db ++ [⟨db.length + 1, s1, u1, t1, m1, hash c⟩]) := by
    simp [index_document, hfind]
  constructor
  · rw [h1]
    simp [index_document, List.find?_append, hfind]
  · rw [h1]
    simp [index_document, List.find?_append, hfindB, hne2]

theorem C7_dedup_witness :
    index_document id (index_document id [] ['a', 'b'] (some ['g']) none none none none).2
        ['a', 'b'] (some ['d']) none none none none =
      index_document id [] ['a', 'b'] (some ['g']) none none none none ∧
    (index_document id (index_document id [] ['a', 'b'] (some ['g']) none none none none).2
        ['a', 'c'] none none none none none).2.length = ([] : List DocRow).length + 2 :=
  C7_content_hash_dedup id (fun _ _ h => h) [] ['a', 'b'] ['a', 'c'] (by decide)
    (by simp) (by simp) (some ['g']) none none none none (some ['d']) none none none
    none none none none none none

/-- C8 counterexample: the RAG API request model accepts a limit of 1000,
far outside [1, 100], as a valid request instead of rejecting it. -/
theorem C8_main_api_accepts_out_of_range_limit :
    main_validate_search_request ⟨some "docs", some 1000, none, none⟩ =
      .ok ⟨"docs", 1000, none, none⟩ ∧ ¬ ((1 : Int) ≤ 1000 ∧ (1000 : Int) ≤ 100) :=
  ⟨rfl, by decide⟩

/-- C8 amended: the MCP server request model (src/app.py) enforces
limit in [1,100] with default 10 and rejects out-of-range values as validation
errors; the RAG API request model (src/main.py) declares the same default but
no range constraint, and accepts any integer limit unchanged. -/
theorem C8_limit_validation_split (q : String) (st : Option ℚ) (sf : Option String)
    (n : Int) (h : n < 1 ∨ 100 < n) :
    main_validate_search_request ⟨some q, some n, st, sf⟩ = .ok ⟨q, n, st, sf⟩ ∧
    app_validate_search_request ⟨some q, some n, none, sf⟩ =
      .error "limit: value out of range" ∧
    main_validate_search_request ⟨some q, none, st, sf⟩ = .ok ⟨q, 10, st, sf⟩ ∧
    app_validate_search_request ⟨some q, none, none, sf⟩ = .ok ⟨q, 10, none, sf⟩ := by
  refine ⟨rfl, ?_, rfl, ?_⟩
  · simp [app_validate_search_request, h]
  · rfl

theorem C8_limit_witness :
    main_validate_search_request ⟨some "docs", some 1000, none, none⟩ =
      .ok ⟨"docs", 1000, none, none⟩ ∧
    app_validate_search_request ⟨some "docs", some 1000, none, none⟩ =
      .error "limit: value out of range" ∧
    main_validate_search_request ⟨some "docs", none, none, none⟩ =
      .ok ⟨"docs", 10, none, none⟩ ∧
    app_validate_search_request ⟨some "docs", none, none, none⟩ =
      .ok ⟨"docs", 10, none, none⟩ :=
  C8_limit_validation_split "docs" none none 1000 (Or.inr (by decide))

end DocPilot
